import Mathlib

/-!
Verification of the foreshadow traffic-event pipeline.

This file gives a shallow embedding, in Lean 4, of the pure logic of the
repository's core pipeline:

* `src/utils/data_storage.py` — `save_city_events`, `get_city_events`
  (per-city JSON store, dedup-by-id, append-only merge);
* `src/utils/date_utils.py` — `validate_event_dates` (normalizer defaults)
  and `do_date_ranges_overlap` (inclusive interval intersection);
* `src/utils/event_finder.py` — `validate_event_date` (validator state
  machine) and `find_traffic_events` (per-category discovery wrapper);
* `src/utils/geo_tagger.py` — `geo_tag_events` (coordinate lookup,
  distance filter).

External effects are made explicit: the store content is passed as a list,
the wall clock (`datetime.now()`) is a string parameter, the fuzzy
dateutil parser and the date/time formatters are function parameters
(`pd`, `pt`, `fd`, `ft`) over abstract ordered date and time types, the
geocoder (`fetch_lat_long`) is a function from address strings to optional
coordinate pairs, and the haversine distance (float trigonometry in the
source) is a function parameter.  Python dictionaries are translated to
structures whose `Option` fields record missing-or-empty keys, and the
remaining fields of a record that the translated code never inspects are
carried opaquely in a `payload` string.
-/

/-! ## Data model: events entering the persistence layer

`save_city_events` reads exactly `event['event_type']`, `event['location']`
and `event['date']` of each incoming dictionary; everything else is copied
through unchanged.  The spec's identity function additionally mentions
`start_date`, so the record keeps that field too, and all remaining keys
are the opaque `payload`. -/

structure SEvent where
  event_type : String
  location : String
  date : String
  start_date : String
  payload : String
  deriving DecidableEq, Repr

/-- A record as written into the per-city JSON store by `save_city_events`:
the incoming dictionary plus `created_at`, `country_code` and `id`
(`src/utils/data_storage.py` lines 170-173). -/
structure StoredEvent where
  event_type : String
  location : String
  date : String
  start_date : String
  payload : String
  created_at : String
  country_code : String
  id : String
  deriving DecidableEq, Repr

/-- The id assigned at `src/utils/data_storage.py:173`:
`f"{event['event_type']}_{event['location']}_{event['date']}"` —
a raw f-string over the `event_type`, `location` and `date` keys. -/
def eventId (e : SEvent) : String :=
  e.event_type ++ "_" ++ e.location ++ "_" ++ e.date

/-- The copy built inside the loop of `save_city_events`
(`event.copy()` plus `created_at`, `country_code` and `id`). -/
def toStored (country_code : String) (now : String) (e : SEvent) : StoredEvent :=
  { event_type := e.event_type
    location := e.location
    date := e.date
    start_date := e.start_date
    payload := e.payload
    created_at := now
    country_code := country_code
    id := eventId e }

/-- The set of ids already present in the store
(`existing_event_ids = {event['id'] for event in existing_events}`,
`src/utils/data_storage.py:165`); membership in the Python set is
membership in this list. -/
def existingIds (existing : List StoredEvent) : List String :=
  existing.map StoredEvent.id

/-- `save_city_events(events, country_code, city_name)`
(`src/utils/data_storage.py` lines 130-186), expressed as a function from
the prior store content to the new store content.  An empty input list
returns early without touching the file; otherwise the store becomes the
existing records followed by the incoming events whose freshly computed id
is not among the ids already in the store.  The membership test uses only
`existing_event_ids`, which is built once before the loop and never
extended inside it. -/
def save_city_events (events : List SEvent) (country_code : String)
    (now : String) (existing : List StoredEvent) : List StoredEvent :=
  if events = [] then existing
  else
    existing ++
      (events.filter
        (fun e => !(existingIds existing).contains (eventId e))).map
        (toStored country_code now)

/-- `get_city_events(country_code, city_name)`
(`src/utils/data_storage.py` lines 188-211): reads the per-city file and
returns its JSON array; a missing or unreadable file (`none`) yields `[]`.
The Python function has exactly the two parameters `country_code` and
`city_name` — it accepts no date-window arguments and performs no
filtering of any kind. -/
def get_city_events (store : Option (List StoredEvent)) : List StoredEvent :=
  match store with
  | some evs => evs
  | none => []

/-- Result of a Python call: either a value, or a `TypeError` raised by the
interpreter because the call supplied keyword arguments the function does
not declare. -/
inductive PyCall (α : Type) where
  | ok (val : α)
  | typeError
  deriving DecidableEq, Repr

/-- The call semantics of `get_city_events` as invoked from `src/app.py`
lines 324 and 424: `get_city_events(country, city, start_date=…,
end_date=…)`.  Since the function declares only `country_code` and
`city_name` (`src/utils/data_storage.py:188`), any call that passes a date
window raises `TypeError: get_city_events() got an unexpected keyword
argument`; a call without a window returns the full store. -/
def get_city_events_call (store : Option (List StoredEvent))
    (window : Option (String × String)) : PyCall (List StoredEvent) :=
  match window with
  | some _ => .typeError
  | none => .ok (get_city_events store)

/-! ## Spec-side identity (for comparison with the code's id)

The specification (§4.4) describes `compute_event_id` as the
underscore-join of the *cleaned* `event_type`, `location` and
`start_date`, where cleaning lowercases, maps spaces to underscores and
strips non-word characters.  This definition follows the spec's words, to
be compared against `eventId` above. -/

/-- Cleaning step described by the spec: lowercase, spaces to underscores,
strip characters that are not word characters (letters, digits,
underscore). -/
def specCleanPart (s : String) : String :=
  String.mk
    (((s.toList.map (fun c => if c = ' ' then '_' else c.toLower)).filter
      (fun c => c.isAlphanum || c = '_')))

/-- `compute_event_id` as the spec words it: cleaned `event_type`,
`location`, `start_date` joined with `_`. -/
def specEventId (e : SEvent) : String :=
  specCleanPart e.event_type ++ "_" ++ specCleanPart e.location ++ "_" ++
    specCleanPart e.start_date

/-! ## Claims C1-C3: deduplication and persistence -/

/-- Sample event used in concrete counterexamples about the store. -/
def sampleConcert : SEvent :=
  { event_type := "Concert"
    location := "Main St"
    date := "10-03-2025"
    start_date := "10-03-2025"
    payload := "src=siteA" }

/-- A second sample that agrees with `sampleConcert` on `event_type`,
`location` and `start_date` but carries a different `date` value. -/
def sampleConcertAltDate : SEvent :=
  { sampleConcert with date := "11-03-2025" }

/-- C1 counterexample: the claim asserts id-uniqueness of the store even
when two events with the same id arrive in one incoming batch.  Saving the
batch `[sampleConcert, sampleConcert]` into an empty store appends both
copies, so the stored ids are not pairwise distinct: the dedup set
`existing_event_ids` is computed once from the prior store and never
extended during the loop. -/
theorem save_city_events_batch_duplicate :
    ¬ ((save_city_events [sampleConcert, sampleConcert] "in" "t0" []).map
        StoredEvent.id).Nodup ∧
    (save_city_events [sampleConcert, sampleConcert] "in" "t0" []).length = 2 := by
  constructor
  · decide
  · decide

/-- C1 (amended): `save_city_events` is append-only — the prior store is an
unchanged prefix of the result; an event whose id is already in the prior
store is never re-appended; and when the ids of the incoming batch are
pairwise distinct (and the prior store's ids are), the resulting store's
ids are pairwise distinct.  Intra-batch duplicate ids are the only way to
break uniqueness. -/
theorem save_city_events_append_only_nodup
    (events : List SEvent) (country_code now : String)
    (existing : List StoredEvent)
    (hex : (existing.map StoredEvent.id).Nodup)
    (hbatch : (events.map eventId).Nodup) :
    (∃ rest, save_city_events events country_code now existing =
        existing ++ rest) ∧
    (∀ s ∈ (save_city_events events country_code now existing).drop
        existing.length, s.id ∉ existingIds existing) ∧
    ((save_city_events events country_code now existing).map
        StoredEvent.id).Nodup := by
  by_cases h : events = []
  · subst h
    simp only [save_city_events, if_pos rfl]
    exact ⟨⟨[], by simp⟩, by simp, hex⟩
  · simp only [save_city_events, if_neg h]
    set newPart := (events.filter
        (fun e => !(existingIds existing).contains (eventId e))).map
        (toStored country_code now) with hnew
    refine ⟨⟨newPart, rfl⟩, ?_, ?_⟩
    · intro s hs
      rw [List.drop_left] at hs
      simp only [hnew, List.mem_map] at hs
      obtain ⟨e, he, rfl⟩ := hs
      rw [List.mem_filter] at he
      have := he.2
      simp only [List.contains, List.elem_eq_mem, Bool.not_eq_true',
        decide_eq_false_iff_not] at this
      simpa [toStored] using this
    · rw [List.map_append]
      rw [List.nodup_append]
      refine ⟨hex, ?_, ?_⟩
      · have hsub : ((events.filter
            (fun e => !(existingIds existing).contains (eventId e))).map
            eventId).Sublist (events.map eventId) :=
          (List.filter_sublist _).map eventId
        have hmapeq : (newPart.map StoredEvent.id) =
            (events.filter
              (fun e => !(existingIds existing).contains (eventId e))).map
              eventId := by
          simp [hnew, toStored, Function.comp]
        rw [hmapeq]
        exact List.Nodup.sublist hsub hbatch
      · intro a ha hb
        simp only [hnew, List.map_map, List.mem_map, Function.comp] at hb
        obtain ⟨e, he, rfl⟩ := hb
        rw [List.mem_filter] at he
        have := he.2
        simp only [List.contains, List.elem_eq_mem, Bool.not_eq_true',
          decide_eq_false_iff_not] at this
        exact this (by simpa [existingIds, toStored] using ha)

/-- C1 witness: the amended theorem applied to a concrete store and batch. -/
theorem save_city_events_append_only_nodup_witness :
    (([] : List StoredEvent).map StoredEvent.id).Nodup ∧
    ([sampleConcert, sampleConcertAltDate].map eventId).Nodup ∧
    ((∃ rest, save_city_events [sampleConcert, sampleConcertAltDate] "in" "t0" [] =
        [] ++ rest) ∧
    (∀ s ∈ (save_city_events [sampleConcert, sampleConcertAltDate] "in" "t0" []).drop
        ([] : List StoredEvent).length, s.id ∉ existingIds []) ∧
    ((save_city_events [sampleConcert, sampleConcertAltDate] "in" "t0" []).map
        StoredEvent.id).Nodup) :=
  ⟨by decide, by decide,
    save_city_events_append_only_nodup [sampleConcert, sampleConcertAltDate]
      "in" "t0" [] (by decide) (by decide)⟩

/-- C2: saving the same batch twice, with the same country code, leaves the
store exactly as after the first save — every incoming id is already
present after the first call, so the second call's filter keeps nothing
(the timestamps of the two calls may differ; no copy carrying the second
timestamp survives the filter). -/
theorem save_city_events_idempotent
    (events : List SEvent) (country_code now1 now2 : String)
    (existing : List StoredEvent) :
    save_city_events events country_code now2
      (save_city_events events country_code now1 existing) =
    save_city_events events country_code now1 existing := by
  by_cases h : events = []
  · subst h
    simp [save_city_events]
  · have hmem : ∀ e ∈ events,
        eventId e ∈ existingIds
          (save_city_events events country_code now1 existing) := by
      intro e he
      simp only [save_city_events, if_neg h, existingIds, List.map_append,
        List.mem_append]
      by_cases hid : eventId e ∈ existing.map StoredEvent.id
      · exact Or.inl hid
      · refine Or.inr ?_
        simp only [List.map_map, List.mem_map, Function.comp]
        refine ⟨e, ?_, by simp [toStored]⟩
        rw [List.mem_filter]
        refine ⟨he, ?_⟩
        simp only [List.contains, List.elem_eq_mem, Bool.not_eq_true',
          decide_eq_false_iff_not]
        simpa [existingIds] using hid
    generalize hR : save_city_events events country_code now1 existing = R at hmem ⊢
    simp only [save_city_events, if_neg h]
    have hfil : events.filter
        (fun e => !(existingIds R).contains (eventId e)) = [] := by
      rw [List.filter_eq_nil_iff]
      intro e he
      simp only [List.contains, List.elem_eq_mem, Bool.not_eq_true',
        decide_eq_false_iff_not, not_not]
      exact hmem e he
    rw [hfil]
    simp

/-- C3 counterexample: the id actually stored for `sampleConcert` is the
raw concatenation `"Concert_Main St_10-03-2025"`, not the cleaned
`"concert_main_st_10032025"` the claim describes; and two events that
agree on `event_type`, `location` and `start_date` but differ in `date`
receive different ids, so the id is not a function of the three fields the
claim names. -/
theorem save_city_events_id_not_cleaned :
    (save_city_events [sampleConcert] "in" "t0" []).map StoredEvent.id =
      ["Concert_Main St_10-03-2025"] ∧
    eventId sampleConcert ≠ specEventId sampleConcert ∧
    sampleConcert.event_type = sampleConcertAltDate.event_type ∧
    sampleConcert.location = sampleConcertAltDate.location ∧
    sampleConcert.start_date = sampleConcertAltDate.start_date ∧
    eventId sampleConcert ≠ eventId sampleConcertAltDate := by
  refine ⟨by decide, by decide, by decide, by decide, by decide, by decide⟩

/-- C3 (amended): every record appended by a save carries the raw
underscore-join of its source event's `event_type`, `location` and `date`
fields as id, and that id is a deterministic function of exactly those
three fields: any two events agreeing on them get equal ids, whatever
their `start_date` and remaining fields. -/
theorem save_city_events_id_shape
    (events : List SEvent) (country_code now : String)
    (existing : List StoredEvent) :
    (∀ s ∈ (save_city_events events country_code now existing).drop
        existing.length,
      ∃ e ∈ events,
        s.id = e.event_type ++ "_" ++ e.location ++ "_" ++ e.date) ∧
    (∀ e1 e2 : SEvent, e1.event_type = e2.event_type →
      e1.location = e2.location → e1.date = e2.date →
      eventId e1 = eventId e2) := by
  constructor
  · intro s hs
    by_cases h : events = []
    · subst h
      simp [save_city_events] at hs
    · simp only [save_city_events, if_neg h, List.drop_left,
        List.mem_map] at hs
      obtain ⟨e, he, rfl⟩ := hs
      rw [List.mem_filter] at he
      exact ⟨e, he.1, rfl⟩
  · intro e1 e2 h1 h2 h3
    simp [eventId, h1, h2, h3]

/-- C3 witness: the amended id-shape theorem applied to the one record
appended by a concrete save. -/
theorem save_city_events_id_shape_witness :
    toStored "in" "t0" sampleConcert ∈
      (save_city_events [sampleConcert] "in" "t0" []).drop
        ([] : List StoredEvent).length ∧
    ∃ e ∈ [sampleConcert],
      (toStored "in" "t0" sampleConcert).id =
        e.event_type ++ "_" ++ e.location ++ "_" ++ e.date :=
  ⟨by decide,
    (save_city_events_id_shape [sampleConcert] "in" "t0"
        ([] : List StoredEvent)).1 _ (by decide)⟩

/-! ## Date and time normalization (`src/utils/date_utils.py`)

Dates are an abstract linearly ordered type `D` (Python `datetime.date`),
times an abstract type `T`.  The fuzzy parser `parse_date` is the
parameter `pd : String → Option D` (`None` for missing/unparseable),
`parse_time` is `pt`, and the formatters `format_date` /
`format_time_12h` are `fd` / `ft`. -/

structure EventRec where
  start_date : Option String
  end_date : Option String
  start_time : Option String
  end_time : Option String
  payload : String
  deriving DecidableEq, Repr

/-- An argument that is either a `date` object or a string to be parsed —
the `isinstance(x, str)` dispatch used throughout `date_utils.py`. -/
inductive DateArg (D : Type) where
  | obj (d : D)
  | strArg (s : String)
  deriving DecidableEq, Repr

/-- String arguments go through `parse_date`; date objects are used
as they are. -/
def resolveArg {D : Type} (pd : String → Option D) : DateArg D → Option D
  | .obj d => some d
  | .strArg s => pd s

/-- `do_date_ranges_overlap` (`src/utils/date_utils.py` lines 241-287):
each of the four arguments is parsed if it is a string, any parse failure
returns `False`, and otherwise the result is
`not (range1_end < range2_start or range1_start > range2_end)`. -/
def do_date_ranges_overlap {D : Type} [LinearOrder D]
    (pd : String → Option D)
    (range1_start range1_end range2_start range2_end : DateArg D) : Bool :=
  match resolveArg pd range1_start with
  | none => false
  | some r1s =>
    match resolveArg pd range1_end with
    | none => false
    | some r1e =>
      match resolveArg pd range2_start with
      | none => false
      | some r2s =>
        match resolveArg pd range2_end with
        | none => false
        | some r2e => decide (¬ (r1e < r2s ∨ r1s > r2e))

/-- The shared shape of the `start_time`/`end_time` blocks of
`validate_event_dates`: a parseable value is formatted, anything else
becomes the given default. -/
def normTime {T : Type} (pt : String → Option T) (ft : T → String)
    (dflt : String) : Option String → String
  | some s =>
    match pt s with
    | some t => ft t
    | none => dflt
  | none => dflt

/-- The `start_date` block of `validate_event_dates`
(`src/utils/date_utils.py` lines 163-167): a present, parseable value is
reformatted; otherwise the field is untouched. -/
def processStartDate {D : Type} (pd : String → Option D) (fd : D → String)
    (event : EventRec) : EventRec :=
  match event.start_date with
  | some s =>
    match pd s with
    | some dobj => { event with start_date := some (fd dobj) }
    | none => event
  | none => event

/-- The `end_date` block (`src/utils/date_utils.py` lines 169-176): a
present, parseable value is reformatted; a present, unparseable value is
left unchanged; a missing value is replaced by the current `start_date`
when that is present. -/
def processEndDate {D : Type} (pd : String → Option D) (fd : D → String)
    (event : EventRec) : EventRec :=
  match event.end_date with
  | some s =>
    match pd s with
    | some dobj => { event with end_date := some (fd dobj) }
    | none => event
  | none =>
    match event.start_date with
    | some sd => { event with end_date := some sd }
    | none => event

/-- `validate_event_dates` (`src/utils/date_utils.py` lines 153-198):
the four field blocks applied in source order. -/
def validate_event_dates {D T : Type} (pd : String → Option D)
    (pt : String → Option T) (fd : D → String) (ft : T → String)
    (event : EventRec) : EventRec :=
  let ev2 := processEndDate pd fd (processStartDate pd fd event)
  let ev3 := { ev2 with
    start_time := some (normTime pt ft "12:00 AM" ev2.start_time) }
  { ev3 with end_time := some (normTime pt ft "11:59 PM" ev3.end_time) }

/-! ## Event validator (`src/utils/event_finder.py`, `validate_event_date`) -/

/-- The tail of `validate_event_date` after both event endpoint objects
are known (`src/utils/event_finder.py` lines 54-87): reject when the end
is before the start, resolve the search window (rejecting an unparseable
window), then keep the event iff `do_date_ranges_overlap` holds. -/
def checkRange {D : Type} [LinearOrder D] (pd : String → Option D)
    (ev : EventRec) (start_date_obj end_date_obj : D)
    (search_start_date search_end_date : DateArg D) : Option EventRec :=
  if end_date_obj < start_date_obj then none
  else
    match resolveArg pd search_start_date with
    | none => none
    | some ss =>
      match resolveArg pd search_end_date with
      | none => none
      | some se =>
        if do_date_ranges_overlap pd (.obj start_date_obj)
            (.obj end_date_obj) (.obj ss) (.obj se) then some ev
        else none

/-- `validate_event_date` (`src/utils/event_finder.py` lines 20-87):
normalize via `validate_event_dates`; reject a missing or unparseable
`start_date`; fall back to `start_date` when the normalized `end_date`
does not parse; then `checkRange`.  `none` is the `{}` the Python code
returns on rejection. -/
def validate_event_date {D T : Type} [LinearOrder D]
    (pd : String → Option D) (pt : String → Option T)
    (fd : D → String) (ft : T → String) (event : EventRec)
    (search_start_date search_end_date : DateArg D) : Option EventRec :=
  let ev := validate_event_dates pd pt fd ft event
  match ev.start_date with
  | none => none
  | some sd =>
    match pd sd with
    | none => none
    | some start_date_obj =>
      match ev.end_date with
      | none => none
      | some ed =>
        match pd ed with
        | some end_date_obj =>
          checkRange pd ev start_date_obj end_date_obj
            search_start_date search_end_date
        | none =>
          checkRange pd { ev with end_date := some sd }
            start_date_obj start_date_obj
            search_start_date search_end_date

/-- The effective end-date object the validator ends up comparing with:
the parse of the raw `end_date` when that succeeds, the (valid) start
object otherwise (both for a missing and for an unparseable `end_date`). -/
def effEnd {D : Type} (pd : String → Option D) (event : EventRec)
    (ds : D) : D :=
  match event.end_date with
  | none => ds
  | some s => (pd s).getD ds

/-! ## Claim C4: date-range overlap -/

/-- C4: on arguments that resolve (date objects, or strings the parser
accepts), `do_date_ranges_overlap` is `true` iff
`¬(aEnd < bStart ∨ aStart > bEnd)`; the function is symmetric in its two
ranges unconditionally; and on the 1/4/5/10 March boundary examples the
touching ranges overlap while the disjoint ones do not. -/
theorem do_date_ranges_overlap_correct {D : Type} [LinearOrder D]
    (pd : String → Option D) (a b c d : DateArg D) (aS aE bS bE : D)
    (ha : resolveArg pd a = some aS) (hb : resolveArg pd b = some aE)
    (hc : resolveArg pd c = some bS) (hd : resolveArg pd d = some bE) :
    (do_date_ranges_overlap pd a b c d = true ↔ ¬ (aE < bS ∨ aS > bE)) ∧
    (∀ p q r s : DateArg D,
      do_date_ranges_overlap pd p q r s = do_date_ranges_overlap pd r s p q) ∧
    (do_date_ranges_overlap (fun _ => none : String → Option Int)
        (.obj 1) (.obj 5) (.obj 5) (.obj 10) = true ∧
      do_date_ranges_overlap (fun _ => none : String → Option Int)
        (.obj 1) (.obj 4) (.obj 5) (.obj 10) = false) := by
  refine ⟨?_, ?_, by decide, by decide⟩
  · simp [do_date_ranges_overlap, ha, hb, hc, hd]
  · intro p q r s
    unfold do_date_ranges_overlap
    cases hp : resolveArg pd p <;> cases hq : resolveArg pd q <;>
      cases hr : resolveArg pd r <;> cases hs : resolveArg pd s <;>
        simp [gt_iff_lt, or_comm]

/-- C4 witness: the characterization applied at date objects 1, 5, 3, 10
under a parser that accepts nothing. -/
theorem do_date_ranges_overlap_correct_witness :
    resolveArg (fun _ => none : String → Option Int) (.obj 1) = some 1 ∧
    resolveArg (fun _ => none : String → Option Int) (.obj 5) = some 5 ∧
    resolveArg (fun _ => none : String → Option Int) (.obj 3) = some 3 ∧
    resolveArg (fun _ => none : String → Option Int) (.obj 10) = some 10 ∧
    ((do_date_ranges_overlap (fun _ => none : String → Option Int)
        (.obj 1) (.obj 5) (.obj 3) (.obj 10) = true ↔
        ¬ ((5 : Int) < 3 ∨ (1 : Int) > 10)) ∧
      (∀ p q r s : DateArg Int,
        do_date_ranges_overlap (fun _ => none : String → Option Int) p q r s =
        do_date_ranges_overlap (fun _ => none : String → Option Int) r s p q) ∧
      (do_date_ranges_overlap (fun _ => none : String → Option Int)
          (.obj 1) (.obj 5) (.obj 5) (.obj 10) = true ∧
        do_date_ranges_overlap (fun _ => none : String → Option Int)
          (.obj 1) (.obj 4) (.obj 5) (.obj 10) = false)) :=
  ⟨rfl, rfl, rfl, rfl,
    do_date_ranges_overlap_correct (fun _ => none) (.obj 1) (.obj 5)
      (.obj 3) (.obj 10) 1 5 3 10 rfl rfl rfl rfl⟩

/-! ## Projection lemmas for the normalizer blocks -/

theorem processStartDate_end_date {D : Type} (pd : String → Option D)
    (fd : D → String) (ev : EventRec) :
    (processStartDate pd fd ev).end_date = ev.end_date := by
  rcases hs : ev.start_date with _ | s
  · simp [processStartDate, hs]
  · rcases hp : pd s with _ | d <;> simp [processStartDate, hs, hp]

theorem processStartDate_start_time {D : Type} (pd : String → Option D)
    (fd : D → String) (ev : EventRec) :
    (processStartDate pd fd ev).start_time = ev.start_time := by
  rcases hs : ev.start_date with _ | s
  · simp [processStartDate, hs]
  · rcases hp : pd s with _ | d <;> simp [processStartDate, hs, hp]

theorem processStartDate_end_time {D : Type} (pd : String → Option D)
    (fd : D → String) (ev : EventRec) :
    (processStartDate pd fd ev).end_time = ev.end_time := by
  rcases hs : ev.start_date with _ | s
  · simp [processStartDate, hs]
  · rcases hp : pd s with _ | d <;> simp [processStartDate, hs, hp]

theorem processStartDate_payload {D : Type} (pd : String → Option D)
    (fd : D → String) (ev : EventRec) :
    (processStartDate pd fd ev).payload = ev.payload := by
  rcases hs : ev.start_date with _ | s
  · simp [processStartDate, hs]
  · rcases hp : pd s with _ | d <;> simp [processStartDate, hs, hp]

theorem processEndDate_start_date {D : Type} (pd : String → Option D)
    (fd : D → String) (ev : EventRec) :
    (processEndDate pd fd ev).start_date = ev.start_date := by
  rcases he : ev.end_date with _ | s
  · rcases hs : ev.start_date with _ | t <;> simp [processEndDate, he, hs]
  · rcases hp : pd s with _ | d <;> simp [processEndDate, he, hp]

theorem processEndDate_start_time {D : Type} (pd : String → Option D)
    (fd : D → String) (ev : EventRec) :
    (processEndDate pd fd ev).start_time = ev.start_time := by
  rcases he : ev.end_date with _ | s
  · rcases hs : ev.start_date with _ | t <;> simp [processEndDate, he, hs]
  · rcases hp : pd s with _ | d <;> simp [processEndDate, he, hp]

theorem processEndDate_end_time {D : Type} (pd : String → Option D)
    (fd : D → String) (ev : EventRec) :
    (processEndDate pd fd ev).end_time = ev.end_time := by
  rcases he : ev.end_date with _ | s
  · rcases hs : ev.start_date with _ | t <;> simp [processEndDate, he, hs]
  · rcases hp : pd s with _ | d <;> simp [processEndDate, he, hp]

theorem processEndDate_payload {D : Type} (pd : String → Option D)
    (fd : D → String) (ev : EventRec) :
    (processEndDate pd fd ev).payload = ev.payload := by
  rcases he : ev.end_date with _ | s
  · rcases hs : ev.start_date with _ | t <;> simp [processEndDate, he, hs]
  · rcases hp : pd s with _ | d <;> simp [processEndDate, he, hp]

theorem processEndDate_end_date_none {D : Type} (pd : String → Option D)
    (fd : D → String) (ev : EventRec) (he : ev.end_date = none) :
    (processEndDate pd fd ev).end_date = ev.start_date := by
  rcases hs : ev.start_date with _ | t <;> simp [processEndDate, he, hs]

theorem processEndDate_end_date_unparsed {D : Type} (pd : String → Option D)
    (fd : D → String) (ev : EventRec) (s : String)
    (he : ev.end_date = some s) (hp : pd s = none) :
    (processEndDate pd fd ev).end_date = some s := by
  simp [processEndDate, he, hp]

theorem processEndDate_end_date_parsed {D : Type} (pd : String → Option D)
    (fd : D → String) (ev : EventRec) (s : String) (d : D)
    (he : ev.end_date = some s) (hp : pd s = some d) :
    (processEndDate pd fd ev).end_date = some (fd d) := by
  simp [processEndDate, he, hp]

theorem processStartDate_start_date_none {D : Type} (pd : String → Option D)
    (fd : D → String) (ev : EventRec) (hs : ev.start_date = none) :
    (processStartDate pd fd ev).start_date = none := by
  simp [processStartDate, hs]

theorem processStartDate_start_date_unparsed {D : Type}
    (pd : String → Option D) (fd : D → String) (ev : EventRec) (s : String)
    (hs : ev.start_date = some s) (hp : pd s = none) :
    (processStartDate pd fd ev).start_date = some s := by
  simp [processStartDate, hs, hp]

theorem processStartDate_start_date_parsed {D : Type}
    (pd : String → Option D) (fd : D → String) (ev : EventRec) (s : String)
    (d : D) (hs : ev.start_date = some s) (hp : pd s = some d) :
    (processStartDate pd fd ev).start_date = some (fd d) := by
  simp [processStartDate, hs, hp]

theorem validate_event_dates_start_time {D T : Type} (pd : String → Option D)
    (pt : String → Option T) (fd : D → String) (ft : T → String)
    (event : EventRec) :
    (validate_event_dates pd pt fd ft event).start_time =
      some (normTime pt ft "12:00 AM" event.start_time) := by
  simp [validate_event_dates, processEndDate_start_time,
    processStartDate_start_time]

theorem validate_event_dates_end_time {D T : Type} (pd : String → Option D)
    (pt : String → Option T) (fd : D → String) (ft : T → String)
    (event : EventRec) :
    (validate_event_dates pd pt fd ft event).end_time =
      some (normTime pt ft "11:59 PM" event.end_time) := by
  simp [validate_event_dates, processEndDate_end_time,
    processStartDate_end_time]

theorem validate_event_dates_payload {D T : Type} (pd : String → Option D)
    (pt : String → Option T) (fd : D → String) (ft : T → String)
    (event : EventRec) :
    (validate_event_dates pd pt fd ft event).payload = event.payload := by
  simp [validate_event_dates, processEndDate_payload, processStartDate_payload]

theorem validate_event_dates_start_date {D T : Type} (pd : String → Option D)
    (pt : String → Option T) (fd : D → String) (ft : T → String)
    (event : EventRec) :
    (validate_event_dates pd pt fd ft event).start_date =
      (processStartDate pd fd event).start_date := by
  simp [validate_event_dates, processEndDate_start_date]

theorem validate_event_dates_end_date {D T : Type} (pd : String → Option D)
    (pt : String → Option T) (fd : D → String) (ft : T → String)
    (event : EventRec) :
    (validate_event_dates pd pt fd ft event).end_date =
      (processEndDate pd fd (processStartDate pd fd event)).end_date := by
  simp [validate_event_dates]

/-- `checkRange` under a resolvable search window collapses to a single
conditional: reject iff the end is before the start, or the span misses
the window on either side. -/
@[simp]
theorem resolveArg_obj {D : Type} (pd : String → Option D) (d : D) :
    resolveArg pd (.obj d) = some d := rfl

theorem checkRange_eq {D : Type} [LinearOrder D] {pd : String → Option D}
    {sArg eArg : DateArg D} {ss se : D}
    (hss : resolveArg pd sArg = some ss)
    (hse : resolveArg pd eArg = some se) (ev : EventRec) (so eo : D) :
    checkRange pd ev so eo sArg eArg =
      if eo < so ∨ eo < ss ∨ se < so then none else some ev := by
  simp only [checkRange, hss, hse, do_date_ranges_overlap, resolveArg_obj,
    decide_eq_true_eq, gt_iff_lt]
  by_cases h1 : eo < so
  · rw [if_pos h1, if_pos (Or.inl h1)]
  · rw [if_neg h1]
    by_cases h2 : eo < ss ∨ se < so
    · rw [if_neg (not_not_intro h2), if_pos (Or.inr h2)]
    · rw [if_pos h2, if_neg (fun hc => hc.elim h1 h2)]

theorem ite_none_iff_cond {α : Type} (c : Prop) [Decidable c] (x : α) :
    (if c then none else some x) = none ↔ c := by
  split_ifs with h <;> simp [h]

/-! ## Claim C5: validator accept/reject characterization -/

/-- C5: with a parser/formatter pair that round-trips and a search window
that resolves, `validate_event_date` rejects (returns `none`, the Python
`{}`) iff the raw `start_date` is missing or unparseable, or the effective
end (parse of the raw `end_date`, defaulting to the start object when the
`end_date` is missing or unparseable) is before the start, or the
`[start, effective end]` span misses the `[ss, se]` window; and every
accepted event is returned with the normalized date and time fields. -/
theorem validate_event_date_accept_reject {D T : Type} [LinearOrder D]
    (pd : String → Option D) (pt : String → Option T)
    (fd : D → String) (ft : T → String) (event : EventRec)
    (sArg eArg : DateArg D) (ss se : D)
    (hrt : ∀ dd, pd (fd dd) = some dd)
    (hss : resolveArg pd sArg = some ss)
    (hse : resolveArg pd eArg = some se) :
    (validate_event_date pd pt fd ft event sArg eArg = none ↔
      event.start_date.bind pd = none ∨
      ∃ ds, event.start_date.bind pd = some ds ∧
        (effEnd pd event ds < ds ∨ effEnd pd event ds < ss ∨ se < ds)) ∧
    (∀ out, validate_event_date pd pt fd ft event sArg eArg = some out →
      ∃ ds, event.start_date.bind pd = some ds ∧
        out.start_date = some (fd ds) ∧
        out.end_date = some (fd (effEnd pd event ds)) ∧
        out.start_time = some (normTime pt ft "12:00 AM" event.start_time) ∧
        out.end_time = some (normTime pt ft "11:59 PM" event.end_time) ∧
        out.payload = event.payload) := by
  cases hstart : event.start_date with
  | none =>
    have hS : (validate_event_dates pd pt fd ft event).start_date = none := by
      rw [validate_event_dates_start_date,
        processStartDate_start_date_none pd fd event hstart]
    constructor
    · simp [validate_event_date, hS, hstart]
    · intro out hout
      simp [validate_event_date, hS] at hout
  | some s0 =>
    cases hps : pd s0 with
    | none =>
      have hS : (validate_event_dates pd pt fd ft event).start_date =
          some s0 := by
        rw [validate_event_dates_start_date,
          processStartDate_start_date_unparsed pd fd event s0 hstart hps]
      constructor
      · simp [validate_event_date, hS, hps, hstart]
      · intro out hout
        simp [validate_event_date, hS, hps] at hout
    | some ds =>
      have hS : (validate_event_dates pd pt fd ft event).start_date =
          some (fd ds) := by
        rw [validate_event_dates_start_date,
          processStartDate_start_date_parsed pd fd event s0 ds hstart hps]
      have hPS : pd (fd ds) = some ds := hrt ds
      have hbind : (some s0).bind pd = some ds := by
        simpa using hps
      cases hend : event.end_date with
      | none =>
        have hE : (validate_event_dates pd pt fd ft event).end_date =
            some (fd ds) := by
          rw [validate_event_dates_end_date,
            processEndDate_end_date_none pd fd _
              (by rw [processStartDate_end_date]; exact hend),
            processStartDate_start_date_parsed pd fd event s0 ds hstart hps]
        have hEff : ∀ x, effEnd pd event x = x := by
          intro x
          simp [effEnd, hend]
        have hval : validate_event_date pd pt fd ft event sArg eArg =
            if ds < ds ∨ ds < ss ∨ se < ds then none
            else some (validate_event_dates pd pt fd ft event) := by
          simp only [validate_event_date, hS, hPS, hE]
          rw [checkRange_eq hss hse]
        constructor
        · rw [hval, ite_none_iff_cond]
          simp [hps, hEff]
        · intro out hout
          rw [hval] at hout
          split_ifs at hout with hC
          obtain rfl := Option.some.inj hout
          exact ⟨ds, hbind, hS, by rw [hEff]; exact hE,
            validate_event_dates_start_time pd pt fd ft event,
            validate_event_dates_end_time pd pt fd ft event,
            validate_event_dates_payload pd pt fd ft event⟩
      | some e0 =>
        cases hpe : pd e0 with
        | none =>
          have hE : (validate_event_dates pd pt fd ft event).end_date =
              some e0 := by
            rw [validate_event_dates_end_date,
              processEndDate_end_date_unparsed pd fd _ e0
                (by rw [processStartDate_end_date]; exact hend) hpe]
          have hEff : ∀ x, effEnd pd event x = x := by
            intro x
            simp [effEnd, hend, hpe]
          have hval : validate_event_date pd pt fd ft event sArg eArg =
              if ds < ds ∨ ds < ss ∨ se < ds then none
              else some { validate_event_dates pd pt fd ft event with
                end_date := some (fd ds) } := by
            simp only [validate_event_date, hS, hPS, hE, hpe]
            rw [checkRange_eq hss hse]
          constructor
          · rw [hval, ite_none_iff_cond]
            simp [hps, hEff]
          · intro out hout
            rw [hval] at hout
            split_ifs at hout with hC
            obtain rfl := Option.some.inj hout
            refine ⟨ds, hbind, ?_, ?_, ?_, ?_, ?_⟩
            · simpa using hS
            · rw [hEff]
            · simpa using validate_event_dates_start_time pd pt fd ft event
            · simpa using validate_event_dates_end_time pd pt fd ft event
            · simpa using validate_event_dates_payload pd pt fd ft event
        | some de =>
          have hE : (validate_event_dates pd pt fd ft event).end_date =
              some (fd de) := by
            rw [validate_event_dates_end_date,
              processEndDate_end_date_parsed pd fd _ e0 de
                (by rw [processStartDate_end_date]; exact hend) hpe]
          have hPE : pd (fd de) = some de := hrt de
          have hEff : ∀ x, effEnd pd event x = de := by
            intro x
            simp [effEnd, hend, hpe]
          have hval : validate_event_date pd pt fd ft event sArg eArg =
              if de < ds ∨ de < ss ∨ se < ds then none
              else some (validate_event_dates pd pt fd ft event) := by
            simp only [validate_event_date, hS, hPS, hE, hPE]
            rw [checkRange_eq hss hse]
          constructor
          · rw [hval, ite_none_iff_cond]
            simp [hps, hEff]
          · intro out hout
            rw [hval] at hout
            split_ifs at hout with hC
            obtain rfl := Option.some.inj hout
            exact ⟨ds, hbind, hS, by rw [hEff]; exact hE,
              validate_event_dates_start_time pd pt fd ft event,
              validate_event_dates_end_time pd pt fd ft event,
              validate_event_dates_payload pd pt fd ft event⟩

/-! ## Concrete parser/formatter pair used by witnesses

A two-date calendar (`Bool`, ordered `false < true`) with a perfect
round-tripping formatter, and a time parser that accepts nothing. -/

def boolFd : Bool → String := fun b => cond b "T" "F"

def boolPd : String → Option Bool := fun s =>
  if s = "T" then some true else if s = "F" then some false else none

def unitPt : String → Option Unit := fun _ => none

def unitFt : Unit → String := fun _ => "12:00 PM"

/-- A raw candidate with a parseable start date, no end date and no
times. -/
def demoEvent : EventRec :=
  { start_date := some "F"
    end_date := none
    start_time := none
    end_time := none
    payload := "concert at plaza" }

/-- C5 witness: the accept/reject characterization applied to `demoEvent`
over the two-date calendar, with the window `[false, true]`. -/
theorem validate_event_date_accept_reject_witness :
    (∀ dd : Bool, boolPd (boolFd dd) = some dd) ∧
    resolveArg boolPd (.obj false) = some false ∧
    resolveArg boolPd (.obj true) = some true ∧
    ((validate_event_date boolPd unitPt boolFd unitFt demoEvent
        (.obj false) (.obj true) = none ↔
      demoEvent.start_date.bind boolPd = none ∨
      ∃ ds, demoEvent.start_date.bind boolPd = some ds ∧
        (effEnd boolPd demoEvent ds < ds ∨
          effEnd boolPd demoEvent ds < false ∨ true < ds)) ∧
    (∀ out, validate_event_date boolPd unitPt boolFd unitFt demoEvent
        (.obj false) (.obj true) = some out →
      ∃ ds, demoEvent.start_date.bind boolPd = some ds ∧
        out.start_date = some (boolFd ds) ∧
        out.end_date = some (boolFd (effEnd boolPd demoEvent ds)) ∧
        out.start_time =
          some (normTime unitPt unitFt "12:00 AM" demoEvent.start_time) ∧
        out.end_time =
          some (normTime unitPt unitFt "11:59 PM" demoEvent.end_time) ∧
        out.payload = demoEvent.payload)) :=
  ⟨fun dd => by cases dd <;> decide, rfl, rfl,
    validate_event_date_accept_reject boolPd unitPt boolFd unitFt demoEvent
      (.obj false) (.obj true) false true
      (fun dd => by cases dd <;> decide) rfl rfl⟩

/-! ## Claim C6: normalizer defaults -/

/-- A raw candidate with a parseable start date and a present but
unparseable end date. -/
def demoBadEnd : EventRec :=
  { start_date := some "F"
    end_date := some "later in March"
    start_time := none
    end_time := none
    payload := "roadwork" }

/-- C6 counterexample: the claim says a missing *or unparseable* end date
is replaced by the start date.  For `demoBadEnd` the end date is present
but unparseable, and `validate_event_dates` leaves it unchanged — it does
not become the (normalized) start date. -/
theorem validate_event_dates_unparseable_end_kept :
    boolPd "later in March" = none ∧
    (validate_event_dates boolPd unitPt boolFd unitFt demoBadEnd).start_date =
      some "F" ∧
    (validate_event_dates boolPd unitPt boolFd unitFt demoBadEnd).end_date =
      some "later in March" ∧
    (validate_event_dates boolPd unitPt boolFd unitFt demoBadEnd).end_date ≠
      (validate_event_dates boolPd unitPt boolFd unitFt demoBadEnd).start_date := by
  refine ⟨by decide, by decide, by decide, by decide⟩

/-- C6 (amended): the defaults `validate_event_dates` actually applies —
a *missing* `end_date` becomes the current `start_date`; a present but
unparseable `end_date` is left unchanged; parseable dates are reformatted;
a missing or unparseable `start_time` becomes `"12:00 AM"` and a missing
or unparseable `end_time` becomes `"11:59 PM"`, parseable times being
reformatted. -/
theorem validate_event_dates_defaults {D T : Type} (pd : String → Option D)
    (pt : String → Option T) (fd : D → String) (ft : T → String)
    (event : EventRec) :
    (event.end_date = none →
      (validate_event_dates pd pt fd ft event).end_date =
        (validate_event_dates pd pt fd ft event).start_date) ∧
    (∀ s, event.end_date = some s → pd s = none →
      (validate_event_dates pd pt fd ft event).end_date = some s) ∧
    (∀ s d, event.end_date = some s → pd s = some d →
      (validate_event_dates pd pt fd ft event).end_date = some (fd d)) ∧
    (∀ s d, event.start_date = some s → pd s = some d →
      (validate_event_dates pd pt fd ft event).start_date = some (fd d)) ∧
    ((event.start_time = none ∨
        ∃ s, event.start_time = some s ∧ pt s = none) →
      (validate_event_dates pd pt fd ft event).start_time =
        some "12:00 AM") ∧
    (∀ s t, event.start_time = some s → pt s = some t →
      (validate_event_dates pd pt fd ft event).start_time = some (ft t)) ∧
    ((event.end_time = none ∨ ∃ s, event.end_time = some s ∧ pt s = none) →
      (validate_event_dates pd pt fd ft event).end_time =
        some "11:59 PM") ∧
    (∀ s t, event.end_time = some s → pt s = some t →
      (validate_event_dates pd pt fd ft event).end_time = some (ft t)) := by
  refine ⟨?_, ?_, ?_, ?_, ?_, ?_, ?_, ?_⟩
  · intro he
    rw [validate_event_dates_end_date, validate_event_dates_start_date,
      processEndDate_end_date_none pd fd _
        (by rw [processStartDate_end_date]; exact he)]
  · intro s he hp
    rw [validate_event_dates_end_date,
      processEndDate_end_date_unparsed pd fd _ s
        (by rw [processStartDate_end_date]; exact he) hp]
  · intro s d he hp
    rw [validate_event_dates_end_date,
      processEndDate_end_date_parsed pd fd _ s d
        (by rw [processStartDate_end_date]; exact he) hp]
  · intro s d hs hp
    rw [validate_event_dates_start_date,
      processStartDate_start_date_parsed pd fd event s d hs hp]
  · intro hcase
    rw [validate_event_dates_start_time]
    rcases hcase with hnone | ⟨s, hsome, hp⟩
    · rw [hnone]
      rfl
    · rw [hsome]
      simp [normTime, hp]
  · intro s t hsome hp
    rw [validate_event_dates_start_time, hsome]
    simp [normTime, hp]
  · intro hcase
    rw [validate_event_dates_end_time]
    rcases hcase with hnone | ⟨s, hsome, hp⟩
    · rw [hnone]
      rfl
    · rw [hsome]
      simp [normTime, hp]
  · intro s t hsome hp
    rw [validate_event_dates_end_time, hsome]
    simp [normTime, hp]

/-- C6 witness: the amended defaults applied to `demoBadEnd`, whose
present-but-unparseable end date is kept verbatim. -/
theorem validate_event_dates_defaults_witness :
    demoBadEnd.end_date = some "later in March" ∧
    boolPd "later in March" = none ∧
    (validate_event_dates boolPd unitPt boolFd unitFt demoBadEnd).end_date =
      some "later in March" :=
  ⟨by decide, by decide,
    (validate_event_dates_defaults boolPd unitPt boolFd unitFt
        demoBadEnd).2.1 "later in March" (by decide) (by decide)⟩

/-! ## Geo-enrichment stage (`src/utils/geo_tagger.py`)

Coordinates are rationals (Python floats); the geocoder `fetch_lat_long`
is a parameter from formatted address strings to an optional latitude and
longitude (`(None, None)` on failure), and `haversine_distance` — float
trigonometry in the source — is the parameter `dist`. -/

structure GeoEvent where
  location : String
  city_name : String
  country_code : String
  traffic_impact : String
  latitude : Option ℚ
  longitude : Option ℚ
  distance_from_city_km : Option ℚ
  influence_radius : Option ℚ
  payload : String
  deriving DecidableEq, Repr

/-- Python truthiness of an optional float coordinate: `None` is falsy
and so is `0.0`. -/
def truthyCoord : Option ℚ → Bool
  | none => false
  | some x => x != 0

/-- `format_full_location` (`src/utils/geo_tagger.py` lines 76-79):
join the non-empty parts with `", "`. -/
def format_full_location (location city country_code : String) : String :=
  String.intercalate ", "
    (([location, city, country_code]).filter (fun p => p ≠ ""))

/-- One iteration of the loop of `geo_tag_events`
(`src/utils/geo_tagger.py` lines 24-53): skip events with a falsy
location; geocode the formatted full location and store the raw result in
`latitude`/`longitude`; skip when either coordinate is falsy; when — and
only when — both city-center coordinates are truthy, compute the distance,
attach `distance_from_city_km`, and skip events farther than
`max_distance_km`; otherwise append the event without any distance
check.  Returns `none` for a skipped event. -/
def geoTagStep (dist : ℚ → ℚ → ℚ → ℚ → ℚ)
    (city_coordinates : Option ℚ × Option ℚ)
    (geocode : String → Option ℚ × Option ℚ)
    (max_distance_km : ℚ) (event : GeoEvent) : Option GeoEvent :=
  if event.location ≠ "" then
    let full_location :=
      format_full_location event.location event.city_name event.country_code
    let coordinates := geocode full_location
    let ev1 := { event with
      latitude := coordinates.1, longitude := coordinates.2 }
    if truthyCoord coordinates.1 && truthyCoord coordinates.2 then
      if truthyCoord city_coordinates.1 && truthyCoord city_coordinates.2 then
        let d := dist (city_coordinates.1.getD 0) (city_coordinates.2.getD 0)
          (coordinates.1.getD 0) (coordinates.2.getD 0)
        let ev2 := { ev1 with distance_from_city_km := some d }
        if d > max_distance_km then none else some ev2
      else some ev1
    else none
  else none

/-- `geo_tag_events(events, city, country_code, max_distance_km=100)`
(`src/utils/geo_tagger.py` lines 8-55): resolve the city center once from
`f"{city}, {country_code}"`, then run the loop over the events in order. -/
def geo_tag_events (dist : ℚ → ℚ → ℚ → ℚ → ℚ)
    (geocode : String → Option ℚ × Option ℚ) (events : List GeoEvent)
    (city country_code : String) (max_distance_km : ℚ) : List GeoEvent :=
  let city_coordinates := geocode (city ++ ", " ++ country_code)
  events.filterMap (geoTagStep dist city_coordinates geocode max_distance_km)

/-- The `influence_radius` table as the spec words it (§3): high→2.5,
medium→1.5, low or unknown→1.0.  Spec-side definition, for comparison —
no function in `src/` computes it. -/
def influence_radius_spec (impact : String) : ℚ :=
  if impact = "high" then 5 / 2
  else if impact = "medium" then 3 / 2
  else 1

/-! ## Claims C7-C8: distance filter and influence radius -/

/-- An event whose geocoded point is about 150 km from the demo city
center (1.35° latitude offset). -/
def farEvent : GeoEvent :=
  { location := "North Field"
    city_name := "Nullville"
    country_code := "XX"
    traffic_impact := "high"
    latitude := none
    longitude := none
    distance_from_city_km := none
    influence_radius := none
    payload := "far" }

/-- An event whose geocoded point is about 50 km from the demo city
center. -/
def nearEvent : GeoEvent :=
  { farEvent with location := "South Gate", payload := "near" }

/-- Demo geocoder, with coordinates in hundredths of a degree: the city
center `"Nullville, XX"` resolves to `(0, 0)`; the far event to
`(135, 50)` — the 1.35° latitude offset of the claim; the near event to
`(45, 25)`. -/
def demoGeocode : String → Option ℚ × Option ℚ := fun a =>
  if a = "Nullville, XX" then (some 0, some 0)
  else if a = "North Field, Nullville, XX" then (some 135, some 50)
  else if a = "South Gate, Nullville, XX" then (some 45, some 25)
  else (none, none)

/-- Demo distance oracle standing in for the haversine: 150 km from the
center to the far point, 50 km to anything else. -/
def demoDist : ℚ → ℚ → ℚ → ℚ → ℚ := fun _ _ x _ =>
  if x = 135 then 150 else 50

/-- C7: with the city center geocoded to `(0, 0)` and
`max_distance_km = 100`, the guard `if city_coordinates[0] and
city_coordinates[1]` is falsy (Python `0.0` is falsy), so the distance
filter is skipped entirely: the 150-km event is *retained*, and neither
retained event gets a `distance_from_city_km` — contradicting the claimed
filtering.  This evaluates the embedded code at the failing input. -/
theorem geo_tag_events_zero_center_skips_distance_filter :
    demoGeocode ("Nullville" ++ ", " ++ "XX") = (some 0, some 0) ∧
    (geo_tag_events demoDist demoGeocode [farEvent, nearEvent]
        "Nullville" "XX" 100).length = 2 ∧
    (∃ e ∈ geo_tag_events demoDist demoGeocode [farEvent, nearEvent]
        "Nullville" "XX" 100,
      e.payload = "far" ∧ e.latitude = some 135 ∧
        e.distance_from_city_km = none) ∧
    (∃ e ∈ geo_tag_events demoDist demoGeocode [farEvent, nearEvent]
        "Nullville" "XX" 100,
      e.payload = "near" ∧ e.distance_from_city_km = none) := by
  refine ⟨by decide, by decide, by decide, by decide⟩

/-- C8 counterexample: the geo-enrichment output contains a high-impact
event whose `influence_radius` is absent — in particular not the `2.5`
the claim derives from `traffic_impact` — because no code in the stage
ever writes that field. -/
theorem geo_tag_events_no_influence_radius :
    ∃ e ∈ geo_tag_events demoDist demoGeocode [farEvent, nearEvent]
        "Nullville" "XX" 100,
      e.traffic_impact = "high" ∧ e.influence_radius = none ∧
      e.influence_radius ≠ some (influence_radius_spec e.traffic_impact) := by
  decide

/-- C8 (amended): `geo_tag_events` never attaches or alters
`influence_radius` (nor `traffic_impact`): every output event inherits
both fields unchanged from some input event — the stage only writes
`latitude`, `longitude` and (when the city-center coordinates are truthy)
`distance_from_city_km`. -/
theorem geo_tag_events_influence_radius_passthrough
    (dist : ℚ → ℚ → ℚ → ℚ → ℚ)
    (geocode : String → Option ℚ × Option ℚ) (events : List GeoEvent)
    (city country_code : String) (max_distance_km : ℚ) :
    ∀ e ∈ geo_tag_events dist geocode events city country_code
        max_distance_km,
      ∃ e0 ∈ events, e.influence_radius = e0.influence_radius ∧
        e.traffic_impact = e0.traffic_impact ∧ e.payload = e0.payload := by
  intro e he
  simp only [geo_tag_events, List.mem_filterMap] at he
  obtain ⟨e0, he0, hstep⟩ := he
  refine ⟨e0, he0, ?_⟩
  simp only [geoTagStep] at hstep
  split_ifs at hstep <;>
    first
      | exact Option.noConfusion hstep
      | (obtain rfl := Option.some.inj hstep
         exact ⟨rfl, rfl, rfl⟩)

/-! ## Claim C9: the load operation -/

/-- C9: evaluating the load path.  A call that passes a date window — as
`src/app.py:324` and `src/app.py:424` do — raises `TypeError`, because
`get_city_events` declares no window parameters; a call without a window
returns every stored record unfiltered; and a missing store yields `[]`
rather than an error. -/
theorem get_city_events_window_type_error :
    get_city_events_call (some [toStored "in" "t0" sampleConcert])
        (some ("01-04-2025", "07-04-2025")) = .typeError ∧
    get_city_events (some [toStored "in" "t0" sampleConcert]) =
      [toStored "in" "t0" sampleConcert] ∧
    get_city_events none = [] := by
  refine ⟨rfl, rfl, rfl⟩

/-! ## Discovery wrapper (`src/utils/event_finder.py`, `find_traffic_events`)

One external call (`client.responses.create` + JSON parse) either raises
an exception carrying a message, or responds with a payload that is
`none` when the response body is not valid JSON and otherwise the parsed
event list.  The UI messages emitted through `st.error` are returned
alongside the events so that the two channels can be compared. -/

inductive CallResult where
  | raiseExn (msg : String)
  | respond (payload : Option (List EventRec))
  deriving DecidableEq, Repr

/-- Naive substring test on character lists (Python `in` on strings). -/
def containsSub (needle hay : List Char) : Bool :=
  (List.range (hay.length + 1)).any
    (fun i => (hay.drop i).take needle.length == needle)

def strContains (hay needle : String) : Bool :=
  containsSub needle.toList hay.toList

/-- The message classification of the exception handler
(`src/utils/event_finder.py` lines 251-261): auth-looking messages,
quota-looking messages, and everything else. -/
def classifyError (msg : String) : String :=
  let m := msg.toLower
  if strContains m "auth" || strContains m "api key" ||
      strContains m "authentication" || strContains m "invalid" ||
      strContains m "unauthorized" then
    "Authentication error: Your OpenAI API key appears to be invalid. Please check your API key and try again."
  else if strContains m "quota" || strContains m "billing" ||
      strContains m "exceeded" then
    "OpenAI API usage limit reached: Your account may be out of credits or has exceeded its quota."
  else
    "Error finding traffic events: " ++ msg

def apiKeyMissingMsg : String :=
  "Please enter your OpenAI API key in the sidebar to search for events."

def apiKeyFormatWarning : String :=
  "The OpenAI API key format does not look valid. It should start with sk-."

/-- The retry loop (`max_retries = 2`): an exception at any attempt is
returned immediately; a JSON-decode failure on attempt 1 retries once;
two decode failures degrade to an empty event list. -/
def attemptResponses (calls : Nat → CallResult) :
    Except String (List EventRec) :=
  match calls 0 with
  | .raiseExn msg => .error msg
  | .respond (some evs) => .ok evs
  | .respond none =>
    match calls 1 with
    | .raiseExn msg => .error msg
    | .respond (some evs) => .ok evs
    | .respond none => .ok []

structure FindResult where
  events : List EventRec
  messages : List String
  deriving DecidableEq, Repr

/-- `find_traffic_events` (`src/utils/event_finder.py` lines 159-268):
a missing client returns `[]` with an error message; an invalid-looking
key only adds a warning and continues; an exception from the call returns
`[]` with the classified error message and no retry; otherwise the
returned candidates go through `validate_event_time`
(= `validate_event_dates`) and `validate_event_date` against the
`[start_date, end_date]` strings, and falsy (rejected) events are
dropped. -/
def find_traffic_events {D T : Type} [LinearOrder D]
    (pd : String → Option D) (pt : String → Option T)
    (fd : D → String) (ft : T → String)
    (clientPresent keyFormatValid : Bool) (calls : Nat → CallResult)
    (start_date end_date : String) : FindResult :=
  if !clientPresent then
    { events := [], messages := [apiKeyMissingMsg] }
  else
    let warn := if !keyFormatValid then [apiKeyFormatWarning] else []
    match attemptResponses calls with
    | .error msg => { events := [], messages := warn ++ [classifyError msg] }
    | .ok evs =>
      let evs1 := evs.map (validate_event_dates pd pt fd ft)
      let evs2 := evs1.map (fun e =>
        validate_event_date pd pt fd ft e (.strArg start_date)
          (.strArg end_date))
      { events := evs2.filterMap id, messages := warn }

/-- The category loop of the search handler (`src/app.py` lines 357-362):
one `find_traffic_events` call per category, extending `all_events` with
each result; `callsFor i` is category `i`'s external call behavior. -/
def search_categories {D T : Type} [LinearOrder D]
    (pd : String → Option D) (pt : String → Option T)
    (fd : D → String) (ft : T → String)
    (clientPresent keyFormatValid : Bool) (callsFor : Nat → Nat → CallResult)
    (numCats : Nat) (start_date end_date : String) : FindResult :=
  (List.range numCats).foldl
    (fun acc i =>
      let r := find_traffic_events pd pt fd ft clientPresent keyFormatValid
        (callsFor i) start_date end_date
      { events := acc.events ++ r.events,
        messages := acc.messages ++ r.messages })
    { events := [], messages := [] }

/-! ## Claim C10: auth failures and the zero-events outcome -/

/-- Category call table for the counterexample: category 0 raises an
authentication error, category 1 responds with one valid event. -/
def demoCallsFor : Nat → Nat → CallResult := fun i _ =>
  if i = 0 then .raiseExn "Authentication failed: invalid api key"
  else .respond (some [demoEvent])

/-- C10 counterexample: an auth failure is *not* surfaced distinctly to
the caller — `find_traffic_events` returns exactly the empty event list,
the same value a normal zero-event search returns (the distinction exists
only in the UI message side channel); and the orchestrating loop keeps
going, so a run with one auth-failed category still produces the other
category's events (partial results). -/
theorem find_traffic_events_auth_failure_empty :
    (find_traffic_events boolPd unitPt boolFd unitFt true true
        (fun _ => .raiseExn "Authentication failed: invalid api key")
        "F" "T").events = [] ∧
    (find_traffic_events boolPd unitPt boolFd unitFt true true
        (fun _ => .respond (some [])) "F" "T").events = [] ∧
    (find_traffic_events boolPd unitPt boolFd unitFt true true
        (fun _ => .raiseExn "Authentication failed: invalid api key")
        "F" "T").events =
      (find_traffic_events boolPd unitPt boolFd unitFt true true
        (fun _ => .respond (some [])) "F" "T").events ∧
    (search_categories boolPd unitPt boolFd unitFt true true demoCallsFor 2
        "F" "T").events ≠ [] := by
  refine ⟨by decide, by decide, by decide, by decide⟩

/-- C10 (amended): a missing client yields an empty event list plus an
error message; an exception on the first call yields an empty event list
plus the classified error message, immediately — the result does not
depend on any later call (no retry on exceptions); and a normal
zero-event response yields the same empty event list with no error
message, so the two outcomes differ only in the message side channel,
never in the returned events. -/
theorem find_traffic_events_failure_modes {D T : Type} [LinearOrder D]
    (pd : String → Option D) (pt : String → Option T)
    (fd : D → String) (ft : T → String) (keyFormatValid : Bool)
    (calls calls2 : Nat → CallResult) (start_date end_date : String)
    (msg : String) :
    (find_traffic_events pd pt fd ft false keyFormatValid calls
        start_date end_date =
      { events := [], messages := [apiKeyMissingMsg] }) ∧
    (calls 0 = .raiseExn msg →
      find_traffic_events pd pt fd ft true keyFormatValid calls
          start_date end_date =
        { events := [],
          messages := (if !keyFormatValid then [apiKeyFormatWarning]
            else []) ++ [classifyError msg] } ∧
      (calls2 0 = .raiseExn msg →
        find_traffic_events pd pt fd ft true keyFormatValid calls
            start_date end_date =
          find_traffic_events pd pt fd ft true keyFormatValid calls2
            start_date end_date)) ∧
    (calls 0 = .respond (some []) →
      find_traffic_events pd pt fd ft true keyFormatValid calls
          start_date end_date =
        { events := [],
          messages := if !keyFormatValid then [apiKeyFormatWarning]
            else [] }) := by
  refine ⟨?_, ?_, ?_⟩
  · simp [find_traffic_events]
  · intro h
    constructor
    · simp [find_traffic_events, attemptResponses, h]
    · intro h2
      simp [find_traffic_events, attemptResponses, h, h2]
  · intro h
    simp [find_traffic_events, attemptResponses, h]

/-- C10 witness: the failure-mode theorem at the concrete auth-failing
call table, with every hypothesis discharged at that input. -/
theorem find_traffic_events_failure_modes_witness :
    (demoCallsFor 0) 0 = .raiseExn "Authentication failed: invalid api key" ∧
    (demoCallsFor 1) 0 = .respond (some [demoEvent]) ∧
    ((find_traffic_events boolPd unitPt boolFd unitFt false true
        (demoCallsFor 0) "F" "T" =
      { events := [], messages := [apiKeyMissingMsg] }) ∧
    ((demoCallsFor 0) 0 =
        .raiseExn "Authentication failed: invalid api key" →
      find_traffic_events boolPd unitPt boolFd unitFt true true
          (demoCallsFor 0) "F" "T" =
        { events := [],
          messages := (if !true then [apiKeyFormatWarning] else []) ++
            [classifyError "Authentication failed: invalid api key"] } ∧
      ((fun _ => CallResult.raiseExn
          "Authentication failed: invalid api key" : Nat → CallResult) 0 =
          .raiseExn "Authentication failed: invalid api key" →
        find_traffic_events boolPd unitPt boolFd unitFt true true
            (demoCallsFor 0) "F" "T" =
          find_traffic_events boolPd unitPt boolFd unitFt true true
            (fun _ => CallResult.raiseExn
              "Authentication failed: invalid api key") "F" "T")) ∧
    ((demoCallsFor 0) 0 = .respond (some []) →
      find_traffic_events boolPd unitPt boolFd unitFt true true
          (demoCallsFor 0) "F" "T" =
        { events := [],
          messages := if !true then [apiKeyFormatWarning] else [] })) :=
  ⟨by decide, by decide,
    find_traffic_events_failure_modes boolPd unitPt boolFd unitFt true
      (demoCallsFor 0)
      (fun _ => CallResult.raiseExn "Authentication failed: invalid api key")
      "F" "T" "Authentication failed: invalid api key"⟩

/-- The far event as it appears in the enriched output: raw geocode
result stored, no distance attached. -/
def farEventTagged : GeoEvent :=
  { farEvent with latitude := some 135, longitude := some 50 }

/-- C8 witness: the pass-through theorem applied to the far event's output
record, whose membership in the enriched output is discharged by
evaluation. -/
theorem geo_tag_events_influence_radius_passthrough_witness :
    farEventTagged ∈
      geo_tag_events demoDist demoGeocode [farEvent, nearEvent]
        "Nullville" "XX" 100 ∧
    ∃ e0 ∈ [farEvent, nearEvent],
      farEventTagged.influence_radius = e0.influence_radius ∧
      farEventTagged.traffic_impact = e0.traffic_impact ∧
      farEventTagged.payload = e0.payload :=
  ⟨by decide,
    geo_tag_events_influence_radius_passthrough demoDist demoGeocode
      [farEvent, nearEvent] "Nullville" "XX" 100 _ (by decide)⟩
